import Mathlib

/-! snippets-go: start-up of the web server (`cmd/web/main.go`)

A shallow embedding of `main` and `openDB`.  A run of the program is a
function of a `World`, which fixes what every call that leaves the program
answers (the command line, the database driver, the file system, the
network).  The run produces the chronological list of the calls it made and
the way the process ended.

Go values are modelled as follows: a pointer that may be nil is an `Option`,
an `error` is `Option GoError` (`none` is nil), `time.Duration` is an `Int`
counting nanoseconds, a `tls.CurveID` is a `Nat`.
-/

namespace SnippetsGo

/-! ## Data model -/

/-- A non-nil Go `error` value, identified by its message. -/
abbrev GoError := String

/-- The pool handle `*sql.DB` that `sql.Open` hands out. -/
structure DB where
  id : Nat
  deriving DecidableEq, Repr

/-- The two streams a logger writes to. -/
inductive Stream where
  | stdout
  | stderr
  deriving DecidableEq, Repr

/-- Flag bits of package `log`. -/
def Ldate : Nat := 1
def Ltime : Nat := 2
def Lshortfile : Nat := 16

/-- A `log.Logger` as built by `log.New(out, prefix, flag)`. -/
structure Logger where
  out : Stream
  pfx : String
  flags : Nat
  deriving DecidableEq, Repr

/-- Durations of package `time`, in nanoseconds. -/
def Nanosecond : Int := 1
def Microsecond : Int := 1000 * Nanosecond
def Millisecond : Int := 1000 * Microsecond
def Second : Int := 1000 * Millisecond
def Minute : Int := 60 * Second
def Hour : Int := 60 * Minute

/-- The part of `sessions.Session` that `main` touches: the key it was
created from and the two exported settings `Lifetime` and `Secure`. -/
structure Session where
  key : List UInt8
  lifetime : Int
  secure : Bool
  deriving DecidableEq, Repr

/-- The value of `map[string]*template.Template`: page name to template id. -/
abbrev TemplateCache := List (String × Nat)

/-- The struct `mysql.SnippetModel`, with its field `DB *sql.DB`. -/
structure SnippetModel where
  db : Option DB
  deriving DecidableEq, Repr

/-- The struct `mysql.UserModel`, with its field `DB *sql.DB`. -/
structure UserModel where
  db : Option DB
  deriving DecidableEq, Repr

/-- The struct `application` (lines 26-33).  Every field is a pointer or a
map in Go, so every field may be nil. -/
structure application where
  errorLog : Option Logger
  infoLog : Option Logger
  session : Option Session
  snippets : Option SnippetModel
  templateCache : Option TemplateCache
  users : Option UserModel
  deriving DecidableEq, Repr

/-- Curve identifiers of package `crypto/tls`. -/
def CurveP256 : Nat := 23
def CurveP384 : Nat := 24
def CurveP521 : Nat := 25
def X25519 : Nat := 29

/-- The two fields of `tls.Config` that `main` sets. -/
structure TLSConfig where
  preferServerCipherSuites : Bool
  curvePreferences : List Nat
  deriving DecidableEq, Repr

/-- The `http.Handler` returned by `app.routes()`. -/
structure Handler where
  id : Nat
  deriving DecidableEq, Repr

/-- The fields of `http.Server` that `main` sets (lines 86-94). -/
structure Server where
  addr : String
  errorLog : Option Logger
  handler : Handler
  tlsConfig : Option TLSConfig
  idleTimeout : Int
  readTimeout : Int
  writeTimeout : Int
  deriving DecidableEq, Repr

/-- The answer of a call that returns a value and an `error`. -/
inductive Answer (α : Type) where
  | ok (a : α)
  | error (err : GoError)
  deriving DecidableEq, Repr

/-- What a run does, one constructor per call, with the answer the call got
where it has one (an `error` is `none` for nil).  `construct` is the
allocation of the `application` value (line 63); `netListen addr none` is a
listener bound to `addr`; `serve` is the entry into the accept loop and
`serveReturn` its return; `deferDBClose` registers `db.Close()` and `dbClose`
is its execution; `logPrint` is a logger printing a value and `logPrintf` a
logger printing a formatted message. -/
inductive Event where
  | flagString (name value usage : String)
  | flagParse
  | logNew (l : Logger)
  | sqlOpen (driver dsn : String) (res : Answer DB)
  | dbPing (db : DB) (err : Option GoError)
  | deferDBClose (db : Option DB)
  | dbClose (db : Option DB)
  | newTemplateCache (dir : String) (res : Answer TemplateCache)
  | sessionsNew (key : List UInt8)
  | construct (app : application)
  | routes (app : application) (h : Handler)
  | logPrintf (l : Logger) (msg : String)
  | listenAndServeTLS (srv : Server) (certFile keyFile : String)
  | netListen (addr : String) (err : Option GoError)
  | loadX509KeyPair (certFile keyFile : String) (err : Option GoError)
  | serve
  | serveReturn (err : GoError)
  | listenerClose
  | logPrint (l : Logger) (v : Option GoError)
  | osExit (code : Nat)
  deriving DecidableEq, Repr

/-- Everything outside the program that a run depends on. -/
structure World where
  /-- The value given on the command line for a flag name, if any. -/
  given : String → Option String
  /-- The status with which `flag.Parse` ends the process itself (the default
  flag set is `ExitOnError`), `none` when it returns. -/
  flagParseExit : Option Nat
  /-- The answer of `sql.Open(driver, dsn)`. -/
  sqlOpen : String → String → Answer DB
  /-- The answer of `db.Ping()`. -/
  ping : DB → Option GoError
  /-- The answer of `newTemplateCache(dir)`. -/
  templateCache : String → Answer TemplateCache
  /-- The settings `sessions.New` initialises a session with. -/
  sessionLifetime0 : Int
  sessionSecure0 : Bool
  /-- The handler `app.routes()` builds. -/
  routes : application → Handler
  /-- The answer of `net.Listen("tcp", addr)`. -/
  listen : String → Option GoError
  /-- The answer of `tls.LoadX509KeyPair(certFile, keyFile)`. -/
  keyPair : String → String → Option GoError
  /-- The error `srv.Serve` returns with, `none` when it never returns. -/
  serve : Option GoError

/-! ## Control flow -/

/-- The state of the process while `main` runs: the calls made so far and the
calls deferred by `main`, the most recent first. -/
structure Proc where
  trace : List Event
  deferred : List Event

/-- How a statement ends: control goes on with a value, the process was ended
by `os.Exit`, or the call never returns. -/
inductive Flow (α : Type) where
  | next (a : α)
  | exit (code : Nat)
  | block

/-- A Go statement: from a process state to the way it ends and the state
it leaves. -/
def Go (α : Type) : Type := Proc → Flow α × Proc

def Go.pure {α : Type} (a : α) : Go α := fun p => (.next a, p)

def Go.bind {α β : Type} (m : Go α) (f : α → Go β) : Go β := fun p =>
  match m p with
  | (.next a, q) => f a q
  | (.exit c, q) => (.exit c, q)
  | (.block, q) => (.block, q)

instance : Monad Go where
  pure := Go.pure
  bind := Go.bind

/-- Record one call. -/
def emit (e : Event) : Go Unit := fun p =>
  (.next (), { p with trace := p.trace ++ [e] })

/-- The statement `defer f()`: push the call on the stack of deferred calls. -/
def deferCall (registered run : Event) : Go Unit := fun p =>
  (.next (), { trace := p.trace ++ [registered], deferred := run :: p.deferred })

/-- The call `os.Exit(code)`: the process ends at once, deferred calls are
not run. -/
def osExit {α : Type} (code : Nat) : Go α := fun p =>
  (.exit code, { p with trace := p.trace ++ [.osExit code] })

/-- A call that never returns. -/
def blockForever {α : Type} : Go α := fun p => (.block, p)

/-- The method `(*log.Logger).Fatal(v)`: `Print(v)` followed by `os.Exit(1)`. -/
def Logger.Fatal {α : Type} (l : Logger) (v : Option GoError) : Go α := do
  emit (.logPrint l v)
  osExit 1

/-- The method `(*log.Logger).Printf`, with the formatted message. -/
def Logger.Printf (l : Logger) (msg : String) : Go Unit :=
  emit (.logPrintf l msg)

/-- The call `log.New(out, prefix, flag)`. -/
def logNew (out : Stream) (pfx : String) (flags : Nat) : Go Logger := do
  let l : Logger := { out := out, pfx := pfx, flags := flags }
  emit (.logNew l)
  return l

/-- A `*string` returned by `flag.String`. -/
structure StringFlag where
  name : String
  value : String

/-- The call `flag.String(name, value, usage)`: registers the flag. -/
def flagString (name value usage : String) : Go StringFlag := do
  emit (.flagString name value usage)
  return { name := name, value := value }

/-- The value of a string flag after `flag.Parse`: the value given on the
command line, the default otherwise. -/
def flagValue (w : World) (name value : String) : String :=
  (w.given name).getD value

/-- Dereference of a flag pointer after `flag.Parse`. -/
def StringFlag.get (w : World) (f : StringFlag) : String :=
  flagValue w f.name f.value

/-- The call `flag.Parse()`. -/
def flagParse (w : World) : Go Unit := do
  emit .flagParse
  match w.flagParseExit with
  | some c => osExit c
  | none => return ()

/-- The conversion `[]byte(s)`. -/
def bytes (s : String) : List UInt8 := s.toUTF8.data.toList

/-- The call `sessions.New(key)` of the library `golangcollege/sessions`: a
session over the key, with the settings the library starts from. -/
def sessionsNew (w : World) (key : List UInt8) : Go Session := do
  emit (.sessionsNew key)
  return { key := key, lifetime := w.sessionLifetime0, secure := w.sessionSecure0 }

/-! ## `openDB` (lines 103-112) -/

/-- The function `openDB`: the pair `(*sql.DB, error)` it returns. -/
def openDB (w : World) (dsn : String) : Go (Option DB × Option GoError) := do
  emit (.sqlOpen "mysql" dsn (w.sqlOpen "mysql" dsn))
  match w.sqlOpen "mysql" dsn with
  | .error err => return (none, some err)
  | .ok db =>
    emit (.dbPing db (w.ping db))
    match w.ping db with
    | some err => return (none, some err)
    | none => return (some db, none)

/-! ## `ListenAndServeTLS` (Go standard library, package `net/http`) -/

/-- The method `(*http.Server).ListenAndServeTLS(certFile, keyFile)` of the Go
standard library (Go 1.9 and later; the module import path of `main.go` needs
Go 1.11), called on a server that was not shut down before: it binds the
address with `net.Listen` (`":https"` for an empty address), and on the bound
listener runs `ServeTLS`, which reads the key pair with `tls.LoadX509KeyPair`
and then enters the accept loop `Serve`.  The listener is closed when the
method returns.  `Serve` returns a non-nil error or does not return.  The
HTTP/2 set-up at the head of `ServeTLS` is left out. -/
def listenAndServeTLS (w : World) (srv : Server) (certFile keyFile : String) :
    Go (Option GoError) := do
  emit (.listenAndServeTLS srv certFile keyFile)
  let addr := if srv.addr = "" then ":https" else srv.addr
  emit (.netListen addr (w.listen addr))
  match w.listen addr with
  | some err => return some err
  | none =>
    emit (.loadX509KeyPair certFile keyFile (w.keyPair certFile keyFile))
    match w.keyPair certFile keyFile with
    | some err =>
      emit .listenerClose
      return some err
    | none =>
      emit .serve
      match w.serve with
      | none => blockForever
      | some err =>
        emit (.serveReturn err)
        emit .listenerClose
        return some err

/-! ## `main` (lines 36-100) -/

/-- Modelled from the spec: `newTemplateCache` (its file, `cmd/web/templates.go`,
is not among the sources).  Section 4.1: given the root directory it produces
the mapping from page identifier to template set or fails, and no partial
cache is ever returned.  The pair is the Go result `(map, error)`. -/
def newTemplateCache (w : World) (dir : String) :
    Go (Option TemplateCache × Option GoError) := do
  emit (.newTemplateCache dir (w.templateCache dir))
  match w.templateCache dir with
  | .error err => return (none, some err)
  | .ok cache => return (some cache, none)

/-- Modelled from the spec: the method `app.routes()` (its file,
`cmd/web/routes.go`, is not among the sources).  Section 4.5: it builds the
request pipeline over the application context; only the handler it returns is
kept here. -/
def application.routes (w : World) (app : application) : Go Handler := do
  emit (.routes app (w.routes app))
  return w.routes app

/-- The function `main`. -/
def main (w : World) : Go Unit := do
  let dsn ← flagString "dsn" "web:pass@/snippetbox?parseTime=true" "MySQL data source name"
  let addr ← flagString "addr" ":4000" "HTTP network address"
  let secret ← flagString "secret" "s6Ndh+pPbnzHbS*+9Pk8qGWhTzbpa@ge" "Secret key"
  flagParse w
  let infoLog ← logNew .stdout "INFO\t" (Ldate ||| Ltime)
  let errorLog ← logNew .stderr "ERROR\t" (Ldate ||| Ltime ||| Lshortfile)
  let (db, err) ← openDB w (dsn.get w)
  if err ≠ none then
    Logger.Fatal errorLog err
  deferCall (.deferDBClose db) (.dbClose db)
  let (templateCache, err) ← newTemplateCache w "./ui/html/"
  if err ≠ none then
    Logger.Fatal errorLog err
  let session ← sessionsNew w (bytes (secret.get w))
  let session := { session with lifetime := 12 * Hour }
  let session := { session with secure := true }
  let app : application :=
    { errorLog := some errorLog
      infoLog := some infoLog
      session := some session
      snippets := some { db := db }
      templateCache := templateCache
      users := some { db := db } }
  emit (.construct app)
  let tlsConfig : TLSConfig :=
    { preferServerCipherSuites := true
      curvePreferences := [X25519, CurveP256] }
  let handler ← app.routes w
  let srv : Server :=
    { addr := addr.get w
      errorLog := some errorLog
      handler := handler
      tlsConfig := some tlsConfig
      idleTimeout := Minute
      readTimeout := 5 * Second
      writeTimeout := 10 * Second }
  Logger.Printf infoLog ("Starting server on " ++ addr.get w)
  let err ← listenAndServeTLS w srv "./tls/cert.pem" "./tls/key.pem"
  Logger.Fatal errorLog err

/-- A finished run: the calls made, in order, and the exit status of the
process (`none` when the process does not end by itself). -/
structure Run where
  trace : List Event
  exit : Option Nat

/-- The program: `main` is started with nothing deferred.  When `main`
returns, its deferred calls run, the most recent first, and the process ends
with status 0; when `os.Exit` is called the process ends there. -/
def run (w : World) : Run :=
  match main w { trace := [], deferred := [] } with
  | (.next _, p) => { trace := p.trace ++ p.deferred ++ [.osExit 0], exit := some 0 }
  | (.exit c, p) => { trace := p.trace, exit := some c }
  | (.block, p) => { trace := p.trace, exit := none }

/-! ## Observations on the calls of a run -/

/-- A listener was bound: a `net.Listen` answered without error. -/
def listenerBound (t : List Event) : Bool :=
  t.any fun ev => match ev with
    | .netListen _ none => true
    | _ => false

/-- The accept loop was entered: the server takes connections. -/
def serving (t : List Event) : Bool :=
  t.any fun ev => match ev with
    | .serve => true
    | _ => false

/-- The data store step failed with `e`: `sql.Open` or `Ping` answered `e`. -/
def dataStoreFailed (t : List Event) (e : GoError) : Bool :=
  t.any fun ev => match ev with
    | .sqlOpen _ _ (.error err) => err == e
    | .dbPing _ (some err) => err == e
    | _ => false

/-- The data store step succeeded with the handle `db`: `sql.Open` answered
`db` and the `Ping` on it answered nil. -/
def dataStoreOpened (t : List Event) (db : DB) : Bool :=
  t.any fun ev => match ev with
    | .dbPing d none => d == db
    | _ => false

/-- The template cache build failed with `e`. -/
def templateCacheFailed (t : List Event) (e : GoError) : Bool :=
  t.any fun ev => match ev with
    | .newTemplateCache _ (.error err) => err == e
    | _ => false

/-- The template cache build answered the cache `c`. -/
def templateCacheBuilt (t : List Event) (c : TemplateCache) : Bool :=
  t.any fun ev => match ev with
    | .newTemplateCache _ (.ok cache) => cache == c
    | _ => false

/-- The read of the TLS certificate and key failed with `e`. -/
def tlsReadFailed (t : List Event) (e : GoError) : Bool :=
  t.any fun ev => match ev with
    | .loadX509KeyPair _ _ (some err) => err == e
    | _ => false

/-- The accept loop returned with `e`: the server stopped. -/
def serverStopped (t : List Event) (e : GoError) : Bool :=
  t.any fun ev => match ev with
    | .serveReturn err => err == e
    | _ => false

/-- The method `ListenAndServeTLS` returned the error `e`: the error of
`net.Listen`, of the key pair read, or of the accept loop. -/
def listenAndServeTLSFailed (t : List Event) (e : GoError) : Bool :=
  t.any fun ev => match ev with
    | .netListen _ (some err) => err == e
    | .loadX509KeyPair _ _ (some err) => err == e
    | .serveReturn err => err == e
    | _ => false

/-- How many times `db.Close()` was executed. -/
def closeCount (t : List Event) : Nat :=
  t.countP fun ev => match ev with
    | .dbClose _ => true
    | _ => false

/-- The handles whose `Close` was deferred. -/
def deferredCloses (t : List Event) : List (Option DB) :=
  t.filterMap fun ev => match ev with
    | .deferDBClose db => some db
    | _ => none

/-- The `application` values constructed. -/
def constructed (t : List Event) : List application :=
  t.filterMap fun ev => match ev with
    | .construct app => some app
    | _ => none

/-- The `application` values handed to the server, through `app.routes()`. -/
def routed (t : List Event) : List application :=
  t.filterMap fun ev => match ev with
    | .routes app _ => some app
    | _ => none

/-- The servers `ListenAndServeTLS` was called on. -/
def servers (t : List Event) : List Server :=
  t.filterMap fun ev => match ev with
    | .listenAndServeTLS srv _ _ => some srv
    | _ => none

/-- The flags registered, each with its default value. -/
def registeredFlags (t : List Event) : List (String × String) :=
  t.filterMap fun ev => match ev with
    | .flagString name value _ => some (name, value)
    | _ => none

/-- The connection strings handed to `sql.Open`. -/
def openedDSNs (t : List Event) : List String :=
  t.filterMap fun ev => match ev with
    | .sqlOpen _ dsn _ => some dsn
    | _ => none

/-- The keys handed to `sessions.New`. -/
def sessionKeys (t : List Event) : List (List UInt8) :=
  t.filterMap fun ev => match ev with
    | .sessionsNew key => some key
    | _ => none

/-- The values printed by a logger through `Fatal`/`Print`. -/
def printed (t : List Event) : List (Logger × Option GoError) :=
  t.filterMap fun ev => match ev with
    | .logPrint l v => some (l, v)
    | _ => none

/-- All six fields of an `application` are non-nil. -/
def application.complete (app : application) : Bool :=
  app.errorLog.isSome && app.infoLog.isSome && app.session.isSome &&
    app.snippets.isSome && app.templateCache.isSome && app.users.isSome

/-! ## Sample worlds -/

/-- Every call succeeds, no flag is given, and the server is later shut down:
the accept loop returns `http.ErrServerClosed`. -/
def worldGraceful : World :=
  { given := fun _ => none
    flagParseExit := none
    sqlOpen := fun _ _ => .ok { id := 1 }
    ping := fun _ => none
    templateCache := fun _ => .ok [("home.page.tmpl", 1)]
    sessionLifetime0 := 24 * Hour
    sessionSecure0 := false
    routes := fun _ => { id := 1 }
    listen := fun _ => none
    keyPair := fun _ _ => none
    serve := some "http: Server closed" }

/-- The database does not answer the ping. -/
def worldNoDatabase : World :=
  { worldGraceful with ping := fun _ => some "dial tcp 127.0.0.1:3306: connect: connection refused" }

/-- A page template does not parse. -/
def worldBadTemplate : World :=
  { worldGraceful with templateCache := fun _ => .error "template: home.page.tmpl:1: unexpected EOF" }

/-- The TLS key file is missing. -/
def worldNoKey : World :=
  { worldGraceful with keyPair := fun _ _ => some "open ./tls/key.pem: no such file or directory" }

/-- The flags are given on the command line. -/
def worldFlags : World :=
  { worldGraceful with
    given := fun name =>
      if name = "addr" then some ":8443"
      else if name = "dsn" then some "web:pw@/box"
      else if name = "secret" then some "k"
      else none }

/-! ## The runs of `main`, path by path -/

/-- The logger `infoLog` of `main` (line 44). -/
def mainInfoLog : Logger := { out := .stdout, pfx := "INFO\t", flags := Ldate ||| Ltime }

/-- The logger `errorLog` of `main` (line 45). -/
def mainErrorLog : Logger :=
  { out := .stderr, pfx := "ERROR\t", flags := Ldate ||| Ltime ||| Lshortfile }

/-- The values of the three flags after parsing. -/
def dsnOf (w : World) : String := flagValue w "dsn" "web:pass@/snippetbox?parseTime=true"
def addrOf (w : World) : String := flagValue w "addr" ":4000"
def secretOf (w : World) : String := flagValue w "secret" "s6Ndh+pPbnzHbS*+9Pk8qGWhTzbpa@ge"

/-- The address `ListenAndServeTLS` binds. -/
def listenAddrOf (w : World) : String := if addrOf w = "" then ":https" else addrOf w

/-- The `application` value `main` builds over the handle `db` and the cache. -/
def appOf (w : World) (db : DB) (cache : TemplateCache) : application :=
  { errorLog := some mainErrorLog
    infoLog := some mainInfoLog
    session := some { key := bytes (secretOf w), lifetime := 12 * Hour, secure := true }
    snippets := some { db := some db }
    templateCache := some cache
    users := some { db := some db } }

/-- The server `main` configures. -/
def serverOf (w : World) (db : DB) (cache : TemplateCache) : Server :=
  { addr := addrOf w
    errorLog := some mainErrorLog
    handler := w.routes (appOf w db cache)
    tlsConfig := some { preferServerCipherSuites := true, curvePreferences := [X25519, CurveP256] }
    idleTimeout := Minute
    readTimeout := 5 * Second
    writeTimeout := 10 * Second }

/-- The calls up to and including `flag.Parse`. -/
def flagsTrace : List Event :=
  [.flagString "dsn" "web:pass@/snippetbox?parseTime=true" "MySQL data source name",
   .flagString "addr" ":4000" "HTTP network address",
   .flagString "secret" "s6Ndh+pPbnzHbS*+9Pk8qGWhTzbpa@ge" "Secret key",
   .flagParse]

/-- The calls up to and including `sql.Open`, which answers `res`. -/
def openTrace (w : World) (res : Answer DB) : List Event :=
  flagsTrace ++ [.logNew mainInfoLog, .logNew mainErrorLog, .sqlOpen "mysql" (dsnOf w) res]

/-- The calls of `errorLog.Fatal(e)`. -/
def fatalTrace (e : GoError) : List Event :=
  [.logPrint mainErrorLog (some e), .osExit 1]

/-- The calls up to and including `newTemplateCache`, which answers `res`. -/
def cacheTrace (w : World) (db : DB) (res : Answer TemplateCache) : List Event :=
  openTrace w (.ok db) ++
    [.dbPing db none, .deferDBClose (some db), .newTemplateCache "./ui/html/" res]

/-- The calls up to and including `net.Listen`, which answers `err`. -/
def listenTrace (w : World) (db : DB) (cache : TemplateCache) (err : Option GoError) :
    List Event :=
  cacheTrace w db (.ok cache) ++
    [.sessionsNew (bytes (secretOf w)),
     .construct (appOf w db cache),
     .routes (appOf w db cache) (w.routes (appOf w db cache)),
     .logPrintf mainInfoLog ("Starting server on " ++ addrOf w),
     .listenAndServeTLS (serverOf w db cache) "./tls/cert.pem" "./tls/key.pem",
     .netListen (listenAddrOf w) err]

/-- The eight ways a run of `main` can go: the answers of the world that
select the way, and the run it gives. -/
inductive Path (w : World) : Run → Prop where
  | parseExits (c : Nat) (h0 : w.flagParseExit = some c) :
      Path w { trace := flagsTrace ++ [.osExit c], exit := some c }
  | openFails (e : GoError) (h0 : w.flagParseExit = none)
      (h1 : w.sqlOpen "mysql" (dsnOf w) = .error e) :
      Path w { trace := openTrace w (.error e) ++ fatalTrace e, exit := some 1 }
  | pingFails (db : DB) (e : GoError) (h0 : w.flagParseExit = none)
      (h1 : w.sqlOpen "mysql" (dsnOf w) = .ok db) (h2 : w.ping db = some e) :
      Path w { trace := openTrace w (.ok db) ++ [.dbPing db (some e)] ++ fatalTrace e,
               exit := some 1 }
  | cacheFails (db : DB) (e : GoError) (h0 : w.flagParseExit = none)
      (h1 : w.sqlOpen "mysql" (dsnOf w) = .ok db) (h2 : w.ping db = none)
      (h3 : w.templateCache "./ui/html/" = .error e) :
      Path w { trace := cacheTrace w db (.error e) ++ fatalTrace e, exit := some 1 }
  | listenFails (db : DB) (cache : TemplateCache) (e : GoError) (h0 : w.flagParseExit = none)
      (h1 : w.sqlOpen "mysql" (dsnOf w) = .ok db) (h2 : w.ping db = none)
      (h3 : w.templateCache "./ui/html/" = .ok cache)
      (h4 : w.listen (listenAddrOf w) = some e) :
      Path w { trace := listenTrace w db cache (some e) ++ fatalTrace e, exit := some 1 }
  | keyPairFails (db : DB) (cache : TemplateCache) (e : GoError) (h0 : w.flagParseExit = none)
      (h1 : w.sqlOpen "mysql" (dsnOf w) = .ok db) (h2 : w.ping db = none)
      (h3 : w.templateCache "./ui/html/" = .ok cache)
      (h4 : w.listen (listenAddrOf w) = none)
      (h5 : w.keyPair "./tls/cert.pem" "./tls/key.pem" = some e) :
      Path w { trace := listenTrace w db cache none ++
                 [.loadX509KeyPair "./tls/cert.pem" "./tls/key.pem" (some e), .listenerClose] ++
                 fatalTrace e,
               exit := some 1 }
  | serverStops (db : DB) (cache : TemplateCache) (e : GoError) (h0 : w.flagParseExit = none)
      (h1 : w.sqlOpen "mysql" (dsnOf w) = .ok db) (h2 : w.ping db = none)
      (h3 : w.templateCache "./ui/html/" = .ok cache)
      (h4 : w.listen (listenAddrOf w) = none)
      (h5 : w.keyPair "./tls/cert.pem" "./tls/key.pem" = none) (h6 : w.serve = some e) :
      Path w { trace := listenTrace w db cache none ++
                 [.loadX509KeyPair "./tls/cert.pem" "./tls/key.pem" none, .serve,
                  .serveReturn e, .listenerClose] ++
                 fatalTrace e,
               exit := some 1 }
  | serves (db : DB) (cache : TemplateCache) (h0 : w.flagParseExit = none)
      (h1 : w.sqlOpen "mysql" (dsnOf w) = .ok db) (h2 : w.ping db = none)
      (h3 : w.templateCache "./ui/html/" = .ok cache)
      (h4 : w.listen (listenAddrOf w) = none)
      (h5 : w.keyPair "./tls/cert.pem" "./tls/key.pem" = none) (h6 : w.serve = none) :
      Path w { trace := listenTrace w db cache none ++
                 [.loadX509KeyPair "./tls/cert.pem" "./tls/key.pem" none, .serve],
               exit := none }

/-! ## Laws of the control flow -/

section
variable {α β γ : Type}

theorem go_pure_bind (a : α) (f : α → Go β) : (pure a >>= f) = f a := rfl

theorem go_bind_assoc (m : Go α) (g : α → Go β) (f : β → Go γ) :
    ((m >>= g) >>= f) = (m >>= fun a => g a >>= f) := by
  funext p
  show Go.bind (Go.bind m g) f p = Go.bind m (fun a => Go.bind (g a) f) p
  unfold Go.bind
  rcases m p with ⟨_ | _ | _, q⟩ <;> rfl

theorem go_pure_apply (a : α) (p : Proc) : (pure a : Go α) p = (.next a, p) := rfl

theorem emit_bind (e : Event) (f : Unit → Go β) (p : Proc) :
    (emit e >>= f) p = f () { trace := p.trace ++ [e], deferred := p.deferred } := rfl

theorem emit_apply (e : Event) (p : Proc) :
    emit e p = (.next (), { trace := p.trace ++ [e], deferred := p.deferred }) := rfl

theorem deferCall_bind (e r : Event) (f : Unit → Go β) (p : Proc) :
    (deferCall e r >>= f) p =
      f () { trace := p.trace ++ [e], deferred := r :: p.deferred } := rfl

theorem osExit_bind (c : Nat) (f : α → Go β) (p : Proc) :
    ((osExit c : Go α) >>= f) p =
      (.exit c, { trace := p.trace ++ [.osExit c], deferred := p.deferred }) := rfl

theorem osExit_apply (c : Nat) (p : Proc) :
    (osExit c : Go α) p =
      (.exit c, { trace := p.trace ++ [.osExit c], deferred := p.deferred }) := rfl

theorem blockForever_bind (f : α → Go β) (p : Proc) :
    ((blockForever : Go α) >>= f) p = (.block, p) := rfl

theorem blockForever_apply (p : Proc) : (blockForever : Go α) p = (.block, p) := rfl

end

theorem run_parseExits (w : World) (c : Nat)
    (h0 : w.flagParseExit = some c) :
    run w =
      { trace := flagsTrace ++ [.osExit c], exit := some c } := by
  unfold run main
  simp [flagString, flagParse, logNew, openDB, newTemplateCache, sessionsNew,
    application.routes, Logger.Printf, Logger.Fatal, listenAndServeTLS, StringFlag.get,
    go_bind_assoc, go_pure_bind, emit_bind, deferCall_bind, osExit_bind, blockForever_bind,
    go_pure_apply, osExit_apply, blockForever_apply, emit_apply, h0,
    openTrace, cacheTrace, listenTrace, fatalTrace, flagsTrace, mainInfoLog, mainErrorLog,
    dsnOf, addrOf, secretOf, listenAddrOf, appOf, serverOf]

theorem run_openFails (w : World) (e : GoError)
    (h0 : w.flagParseExit = none)
    (h1 : w.sqlOpen "mysql" (dsnOf w) = .error e) :
    run w =
      { trace := openTrace w (.error e) ++ fatalTrace e, exit := some 1 } := by
  simp only [dsnOf] at h1
  unfold run main
  simp [flagString, flagParse, logNew, openDB, newTemplateCache, sessionsNew,
    application.routes, Logger.Printf, Logger.Fatal, listenAndServeTLS, StringFlag.get,
    go_bind_assoc, go_pure_bind, emit_bind, deferCall_bind, osExit_bind, blockForever_bind,
    go_pure_apply, osExit_apply, blockForever_apply, emit_apply, h0, h1,
    openTrace, cacheTrace, listenTrace, fatalTrace, flagsTrace, mainInfoLog, mainErrorLog,
    dsnOf, addrOf, secretOf, listenAddrOf, appOf, serverOf]

theorem run_pingFails (w : World) (db : DB) (e : GoError)
    (h0 : w.flagParseExit = none)
    (h1 : w.sqlOpen "mysql" (dsnOf w) = .ok db)
    (h2 : w.ping db = some e) :
    run w =
      { trace := openTrace w (.ok db) ++ [.dbPing db (some e)] ++ fatalTrace e, exit := some 1 } := by
  simp only [dsnOf] at h1
  unfold run main
  simp [flagString, flagParse, logNew, openDB, newTemplateCache, sessionsNew,
    application.routes, Logger.Printf, Logger.Fatal, listenAndServeTLS, StringFlag.get,
    go_bind_assoc, go_pure_bind, emit_bind, deferCall_bind, osExit_bind, blockForever_bind,
    go_pure_apply, osExit_apply, blockForever_apply, emit_apply, h0, h1, h2,
    openTrace, cacheTrace, listenTrace, fatalTrace, flagsTrace, mainInfoLog, mainErrorLog,
    dsnOf, addrOf, secretOf, listenAddrOf, appOf, serverOf]

theorem run_cacheFails (w : World) (db : DB) (e : GoError)
    (h0 : w.flagParseExit = none)
    (h1 : w.sqlOpen "mysql" (dsnOf w) = .ok db)
    (h2 : w.ping db = none)
    (h3 : w.templateCache "./ui/html/" = .error e) :
    run w =
      { trace := cacheTrace w db (.error e) ++ fatalTrace e, exit := some 1 } := by
  simp only [dsnOf] at h1
  unfold run main
  simp [flagString, flagParse, logNew, openDB, newTemplateCache, sessionsNew,
    application.routes, Logger.Printf, Logger.Fatal, listenAndServeTLS, StringFlag.get,
    go_bind_assoc, go_pure_bind, emit_bind, deferCall_bind, osExit_bind, blockForever_bind,
    go_pure_apply, osExit_apply, blockForever_apply, emit_apply, h0, h1, h2, h3,
    openTrace, cacheTrace, listenTrace, fatalTrace, flagsTrace, mainInfoLog, mainErrorLog,
    dsnOf, addrOf, secretOf, listenAddrOf, appOf, serverOf]

theorem run_listenFails (w : World) (db : DB) (cache : TemplateCache) (e : GoError)
    (h0 : w.flagParseExit = none)
    (h1 : w.sqlOpen "mysql" (dsnOf w) = .ok db)
    (h2 : w.ping db = none)
    (h3 : w.templateCache "./ui/html/" = .ok cache)
    (h4 : w.listen (listenAddrOf w) = some e) :
    run w =
      { trace := listenTrace w db cache (some e) ++ fatalTrace e, exit := some 1 } := by
  simp only [dsnOf, listenAddrOf, addrOf] at h1 h4
  unfold run main
  simp [flagString, flagParse, logNew, openDB, newTemplateCache, sessionsNew,
    application.routes, Logger.Printf, Logger.Fatal, listenAndServeTLS, StringFlag.get,
    go_bind_assoc, go_pure_bind, emit_bind, deferCall_bind, osExit_bind, blockForever_bind,
    go_pure_apply, osExit_apply, blockForever_apply, emit_apply, h0, h1, h2, h3, h4,
    openTrace, cacheTrace, listenTrace, fatalTrace, flagsTrace, mainInfoLog, mainErrorLog,
    dsnOf, addrOf, secretOf, listenAddrOf, appOf, serverOf]

theorem run_keyPairFails (w : World) (db : DB) (cache : TemplateCache) (e : GoError)
    (h0 : w.flagParseExit = none)
    (h1 : w.sqlOpen "mysql" (dsnOf w) = .ok db)
    (h2 : w.ping db = none)
    (h3 : w.templateCache "./ui/html/" = .ok cache)
    (h4 : w.listen (listenAddrOf w) = none)
    (h5 : w.keyPair "./tls/cert.pem" "./tls/key.pem" = some e) :
    run w =
      { trace := listenTrace w db cache none ++
          [.loadX509KeyPair "./tls/cert.pem" "./tls/key.pem" (some e), .listenerClose] ++
          fatalTrace e,
        exit := some 1 } := by
  simp only [dsnOf, listenAddrOf, addrOf] at h1 h4
  unfold run main
  simp [flagString, flagParse, logNew, openDB, newTemplateCache, sessionsNew,
    application.routes, Logger.Printf, Logger.Fatal, listenAndServeTLS, StringFlag.get,
    go_bind_assoc, go_pure_bind, emit_bind, deferCall_bind, osExit_bind, blockForever_bind,
    go_pure_apply, osExit_apply, blockForever_apply, emit_apply, h0, h1, h2, h3, h4, h5,
    openTrace, cacheTrace, listenTrace, fatalTrace, flagsTrace, mainInfoLog, mainErrorLog,
    dsnOf, addrOf, secretOf, listenAddrOf, appOf, serverOf]

theorem run_serverStops (w : World) (db : DB) (cache : TemplateCache) (e : GoError)
    (h0 : w.flagParseExit = none)
    (h1 : w.sqlOpen "mysql" (dsnOf w) = .ok db)
    (h2 : w.ping db = none)
    (h3 : w.templateCache "./ui/html/" = .ok cache)
    (h4 : w.listen (listenAddrOf w) = none)
    (h5 : w.keyPair "./tls/cert.pem" "./tls/key.pem" = none)
    (h6 : w.serve = some e) :
    run w =
      { trace := listenTrace w db cache none ++
          [.loadX509KeyPair "./tls/cert.pem" "./tls/key.pem" none, .serve,
           .serveReturn e, .listenerClose] ++
          fatalTrace e,
        exit := some 1 } := by
  simp only [dsnOf, listenAddrOf, addrOf] at h1 h4
  unfold run main
  simp [flagString, flagParse, logNew, openDB, newTemplateCache, sessionsNew,
    application.routes, Logger.Printf, Logger.Fatal, listenAndServeTLS, StringFlag.get,
    go_bind_assoc, go_pure_bind, emit_bind, deferCall_bind, osExit_bind, blockForever_bind,
    go_pure_apply, osExit_apply, blockForever_apply, emit_apply, h0, h1, h2, h3, h4, h5, h6,
    openTrace, cacheTrace, listenTrace, fatalTrace, flagsTrace, mainInfoLog, mainErrorLog,
    dsnOf, addrOf, secretOf, listenAddrOf, appOf, serverOf]

theorem run_serves (w : World) (db : DB) (cache : TemplateCache)
    (h0 : w.flagParseExit = none)
    (h1 : w.sqlOpen "mysql" (dsnOf w) = .ok db)
    (h2 : w.ping db = none)
    (h3 : w.templateCache "./ui/html/" = .ok cache)
    (h4 : w.listen (listenAddrOf w) = none)
    (h5 : w.keyPair "./tls/cert.pem" "./tls/key.pem" = none)
    (h6 : w.serve = none) :
    run w =
      { trace := listenTrace w db cache none ++
          [.loadX509KeyPair "./tls/cert.pem" "./tls/key.pem" none, .serve],
        exit := none } := by
  simp only [dsnOf, listenAddrOf, addrOf] at h1 h4
  unfold run main
  simp [flagString, flagParse, logNew, openDB, newTemplateCache, sessionsNew,
    application.routes, Logger.Printf, Logger.Fatal, listenAndServeTLS, StringFlag.get,
    go_bind_assoc, go_pure_bind, emit_bind, deferCall_bind, osExit_bind, blockForever_bind,
    go_pure_apply, osExit_apply, blockForever_apply, emit_apply, h0, h1, h2, h3, h4, h5, h6,
    openTrace, cacheTrace, listenTrace, fatalTrace, flagsTrace, mainInfoLog, mainErrorLog,
    dsnOf, addrOf, secretOf, listenAddrOf, appOf, serverOf]

/-- Every run of `main` is one of the eight paths. -/
theorem run_path (w : World) : Path w (run w) := by
  rcases h0 : w.flagParseExit with _ | c
  · rcases h1 : w.sqlOpen "mysql" (dsnOf w) with db | e
    · rcases h2 : w.ping db with _ | e
      · rcases h3 : w.templateCache "./ui/html/" with cache | e
        · rcases h4 : w.listen (listenAddrOf w) with _ | e
          · rcases h5 : w.keyPair "./tls/cert.pem" "./tls/key.pem" with _ | e
            · rcases h6 : w.serve with _ | e
              · rw [run_serves w db cache h0 h1 h2 h3 h4 h5 h6]
                exact Path.serves db cache h0 h1 h2 h3 h4 h5 h6
              · rw [run_serverStops w db cache e h0 h1 h2 h3 h4 h5 h6]
                exact Path.serverStops db cache e h0 h1 h2 h3 h4 h5 h6
            · rw [run_keyPairFails w db cache e h0 h1 h2 h3 h4 h5]
              exact Path.keyPairFails db cache e h0 h1 h2 h3 h4 h5
          · rw [run_listenFails w db cache e h0 h1 h2 h3 h4]
            exact Path.listenFails db cache e h0 h1 h2 h3 h4
        · rw [run_cacheFails w db e h0 h1 h2 h3]
          exact Path.cacheFails db e h0 h1 h2 h3
      · rw [run_pingFails w db e h0 h1 h2]
        exact Path.pingFails db e h0 h1 h2
    · rw [run_openFails w e h0 h1]
      exact Path.openFails e h0 h1
  · rw [run_parseExits w c h0]
    exact Path.parseExits c h0

/-! ## `openDB` -/

/-- C4: `openDB` always returns; it returns a non-nil handle with a nil error
exactly when `sql.Open` succeeded and the `Ping` on that handle succeeded; when
`sql.Open` fails it returns nil and that error and makes no `Ping`; when the
`Ping` fails it returns nil and the ping error; a handle that is returned is
the one `sql.Open` gave and was pinged with success. -/
theorem openDB_handle_iff_pinged (w : World) (dsn : String) (p : Proc) :
    ∃ db err q, openDB w dsn p = (.next (db, err), q) ∧ q.deferred = p.deferred ∧
      ((db.isSome = true ∧ err = none) ↔ ∃ h, w.sqlOpen "mysql" dsn = .ok h ∧ w.ping h = none) ∧
      (∀ e, w.sqlOpen "mysql" dsn = .error e →
        db = none ∧ err = some e ∧ q.trace = p.trace ++ [.sqlOpen "mysql" dsn (.error e)]) ∧
      (∀ h e, w.sqlOpen "mysql" dsn = .ok h → w.ping h = some e →
        db = none ∧ err = some e ∧
          q.trace = p.trace ++ [.sqlOpen "mysql" dsn (.ok h), .dbPing h (some e)]) ∧
      (∀ h, db = some h →
        w.sqlOpen "mysql" dsn = .ok h ∧ w.ping h = none ∧ err = none ∧
          q.trace = p.trace ++ [.sqlOpen "mysql" dsn (.ok h), .dbPing h none]) := by
  unfold openDB
  rcases h1 : w.sqlOpen "mysql" dsn with h | e
  · rcases h2 : w.ping h with _ | e
    · refine ⟨some h, none,
        { trace := p.trace ++ [.sqlOpen "mysql" dsn (.ok h), .dbPing h none],
          deferred := p.deferred }, ?_, rfl, ?_⟩
      · simp [emit_bind, go_pure_apply, h2]
      · simp [h2]
        rintro hh ee rfl
        simp [h2]
    · refine ⟨none, some e,
        { trace := p.trace ++ [.sqlOpen "mysql" dsn (.ok h), .dbPing h (some e)],
          deferred := p.deferred }, ?_, rfl, ?_⟩
      · simp [emit_bind, go_pure_apply, h2]
      · simp [h2]
        rintro hh ee rfl hp
        rw [h2] at hp
        cases hp
        simp
  · refine ⟨none, some e,
      { trace := p.trace ++ [.sqlOpen "mysql" dsn (.error e)], deferred := p.deferred },
      ?_, rfl, ?_⟩
    · simp [emit_bind, go_pure_apply]
    · simp

/-! ## Start-up failures -/

/-- C1, as the code falsifies it: with the TLS key file missing, the read of the
key pair inside `ListenAndServeTLS` fails and the process exits with status 1,
but the listener was bound on `:4000` before that. -/
theorem tls_read_failure_after_bind :
    tlsReadFailed (run worldNoKey).trace "open ./tls/key.pem: no such file or directory" = true ∧
      (run worldNoKey).exit = some 1 ∧
      (run worldNoKey).trace.getLast? = some (.osExit 1) ∧
      Event.netListen ":4000" none ∈ (run worldNoKey).trace ∧
      listenerBound (run worldNoKey).trace = true := by
  decide

/-- C1, amended: when the data store step, the template cache build or the read
of the TLS key pair fails, the process exits with status 1 and the accept loop
is never entered; after a failure of the first two no listener was bound, after
a failure of the key pair read the listener was bound. -/
theorem startup_failure_exits_before_serving (w : World) (e : GoError)
    (h : dataStoreFailed (run w).trace e = true ∨ templateCacheFailed (run w).trace e = true ∨
      tlsReadFailed (run w).trace e = true) :
    (run w).exit = some 1 ∧ serving (run w).trace = false ∧
      (dataStoreFailed (run w).trace e = true ∨ templateCacheFailed (run w).trace e = true →
        listenerBound (run w).trace = false) ∧
      (tlsReadFailed (run w).trace e = true → listenerBound (run w).trace = true) := by
  have hp := run_path w
  revert h
  generalize run w = r at hp ⊢
  cases hp <;>
    simp [dataStoreFailed, templateCacheFailed, tlsReadFailed, serving, listenerBound,
      flagsTrace, openTrace, cacheTrace, listenTrace, fatalTrace]

/-- The run in which the database does not answer the ping is an instance. -/
theorem startup_failure_exits_before_serving_witness :
    (run worldNoDatabase).exit = some 1 ∧ serving (run worldNoDatabase).trace = false ∧
      (dataStoreFailed (run worldNoDatabase).trace
            "dial tcp 127.0.0.1:3306: connect: connection refused" = true ∨
          templateCacheFailed (run worldNoDatabase).trace
            "dial tcp 127.0.0.1:3306: connect: connection refused" = true →
        listenerBound (run worldNoDatabase).trace = false) ∧
      (tlsReadFailed (run worldNoDatabase).trace
          "dial tcp 127.0.0.1:3306: connect: connection refused" = true →
        listenerBound (run worldNoDatabase).trace = true) :=
  startup_failure_exits_before_serving worldNoDatabase
    "dial tcp 127.0.0.1:3306: connect: connection refused" (Or.inl (by decide))

/-! ## Release of the connection pool -/

/-- C2, on the code: no run of `main` executes `db.Close()`.  In the run where
the pool is opened and the template cache build then fails, `db.Close()` is
deferred for the open handle, the process exits with status 1 through
`errorLog.Fatal`, and the deferred call is never run. -/
theorem deferred_close_never_runs :
    (∀ w : World, closeCount (run w).trace = 0) ∧
      dataStoreOpened (run worldBadTemplate).trace { id := 1 } = true ∧
      deferredCloses (run worldBadTemplate).trace = [some { id := 1 }] ∧
      (run worldBadTemplate).exit = some 1 ∧
      closeCount (run worldBadTemplate).trace = 0 := by
  refine ⟨fun w => ?_, by decide, by decide, by decide, by decide⟩
  have hp := run_path w
  generalize run w = r at hp ⊢
  cases hp <;> simp [closeCount, flagsTrace, openTrace, cacheTrace, listenTrace, fatalTrace]

/-! ## Exit status -/

/-- C3, as the code falsifies it: in the run where every start-up step succeeds
and the server is then shut down, so that the accept loop returns
`http.ErrServerClosed`, the process exits with status 1, not 0. -/
theorem graceful_stop_exits_one :
    serverStopped (run worldGraceful).trace "http: Server closed" = true ∧
      serving (run worldGraceful).trace = true ∧
      (run worldGraceful).exit = some 1 := by
  decide

/-- C3, amended: once `flag.Parse` has returned, a run of `main` that ends the
process ends it with status 1, never 0; this is so when a start-up step fails
and also when the accept loop returns because the server stopped.  A run ends
with no status exactly when the accept loop was entered and did not return. -/
theorem main_exit_status_is_one (w : World) (h0 : w.flagParseExit = none) :
    (run w).exit ≠ some 0 ∧ ((run w).exit = some 1 ∨ (run w).exit = none) ∧
      (∀ e, serverStopped (run w).trace e = true → (run w).exit = some 1) ∧
      ((run w).exit = none ↔
        serving (run w).trace = true ∧ ∀ e, serverStopped (run w).trace e = false) := by
  have hp := run_path w
  generalize run w = r at hp ⊢
  cases hp <;>
    simp_all [serverStopped, serving, flagsTrace, openTrace, cacheTrace, listenTrace, fatalTrace]

/-- The run in which the server is shut down is an instance. -/
theorem main_exit_status_is_one_witness :
    (run worldGraceful).exit ≠ some 0 ∧
      ((run worldGraceful).exit = some 1 ∨ (run worldGraceful).exit = none) ∧
      (∀ e, serverStopped (run worldGraceful).trace e = true → (run worldGraceful).exit = some 1) ∧
      ((run worldGraceful).exit = none ↔
        serving (run worldGraceful).trace = true ∧
          ∀ e, serverStopped (run worldGraceful).trace e = false) :=
  main_exit_status_is_one worldGraceful rfl

/-! ## The application context -/

/-- C5: an `application` value is constructed exactly on the runs where the data
store step and the template cache build both succeeded; every value that is
constructed has its six fields non-nil; the values handed to the server are
the values constructed, at most one per run, and the handler of every server
is built from a constructed value; on a run where the data store step or the
template cache build fails, nothing is constructed and nothing is handed on. -/
theorem application_all_or_nothing (w : World) :
    (constructed (run w).trace ≠ [] ↔
        ∃ db cache, dataStoreOpened (run w).trace db = true ∧
          templateCacheBuilt (run w).trace cache = true) ∧
      (∀ app ∈ constructed (run w).trace, app.complete = true) ∧
      routed (run w).trace = constructed (run w).trace ∧
      (constructed (run w).trace).length ≤ 1 ∧
      (∀ srv ∈ servers (run w).trace,
        ∃ app ∈ constructed (run w).trace, srv.handler = w.routes app) ∧
      (∀ e, dataStoreFailed (run w).trace e = true ∨ templateCacheFailed (run w).trace e = true →
        constructed (run w).trace = [] ∧ routed (run w).trace = [] ∧
          servers (run w).trace = []) := by
  have hp := run_path w
  generalize run w = r at hp ⊢
  cases hp <;>
    simp [constructed, routed, servers, dataStoreOpened, templateCacheBuilt, dataStoreFailed,
      templateCacheFailed, application.complete, flagsTrace, openTrace, cacheTrace,
      listenTrace, fatalTrace, appOf, serverOf]

/-- C6: the session stored in every `application` value that is constructed or
handed to the server was created from the bytes of the `secret` flag, with
lifetime 12 hours and the secure-only setting on, whatever the world answers
and whatever `sessions.New` initialised; `sessions.New` is called once, on
those bytes. -/
theorem session_from_secret_fixed_settings (w : World) (app : application)
    (h : app ∈ constructed (run w).trace ∨ app ∈ routed (run w).trace) :
    app.session =
        some { key := bytes (flagValue w "secret" "s6Ndh+pPbnzHbS*+9Pk8qGWhTzbpa@ge"),
               lifetime := 12 * Hour, secure := true } ∧
      sessionKeys (run w).trace = [bytes (flagValue w "secret" "s6Ndh+pPbnzHbS*+9Pk8qGWhTzbpa@ge")] ∧
      12 * Hour = 43200000000000 := by
  have hp := run_path w
  revert h
  generalize run w = r at hp ⊢
  have hh : 12 * Hour = 43200000000000 := by decide
  cases hp <;>
    simp [constructed, routed, sessionKeys, flagsTrace, openTrace, cacheTrace,
      listenTrace, fatalTrace, appOf, secretOf, hh] <;>
    (rintro rfl; rfl)

/-- The run with all three flags given is an instance. -/
theorem session_from_secret_fixed_settings_witness :
    (appOf worldFlags { id := 1 } [("home.page.tmpl", 1)]).session =
        some { key := bytes (flagValue worldFlags "secret" "s6Ndh+pPbnzHbS*+9Pk8qGWhTzbpa@ge"),
               lifetime := 12 * Hour, secure := true } ∧
      sessionKeys (run worldFlags).trace =
        [bytes (flagValue worldFlags "secret" "s6Ndh+pPbnzHbS*+9Pk8qGWhTzbpa@ge")] ∧
      12 * Hour = 43200000000000 :=
  session_from_secret_fixed_settings worldFlags
    (appOf worldFlags { id := 1 } [("home.page.tmpl", 1)]) (Or.inl (by decide))

/-! ## The server -/

/-- C7: every server on which `ListenAndServeTLS` is called has a TLS
configuration whose curve preferences are X25519 then P256, and nothing else,
and whose server-side cipher suite preference is on. -/
theorem tls_config_fixed (w : World) (srv : Server) (h : srv ∈ servers (run w).trace) :
    srv.tlsConfig =
        some { preferServerCipherSuites := true, curvePreferences := [X25519, CurveP256] } ∧
      [X25519, CurveP256] = [29, 23] := by
  have hp := run_path w
  revert h
  generalize run w = r at hp ⊢
  cases hp <;>
    simp [servers, flagsTrace, openTrace, cacheTrace, listenTrace, fatalTrace, serverOf,
      X25519, CurveP256] <;>
    (rintro rfl; rfl)

/-- The server of the run with all three flags given is an instance. -/
theorem tls_config_fixed_witness :
    (serverOf worldFlags { id := 1 } [("home.page.tmpl", 1)]).tlsConfig =
        some { preferServerCipherSuites := true, curvePreferences := [X25519, CurveP256] } ∧
      [X25519, CurveP256] = [29, 23] :=
  tls_config_fixed worldFlags (serverOf worldFlags { id := 1 } [("home.page.tmpl", 1)])
    (by decide)

/-- C8: every server on which `ListenAndServeTLS` is called has idle timeout one
minute, read timeout five seconds and write timeout ten seconds; each is
positive, read is below write, write is below idle, and all fit in an
`int64`. -/
theorem timeouts_fixed (w : World) (srv : Server) (h : srv ∈ servers (run w).trace) :
    srv.idleTimeout = Minute ∧ srv.readTimeout = 5 * Second ∧ srv.writeTimeout = 10 * Second ∧
      srv.idleTimeout = 60000000000 ∧ srv.readTimeout = 5000000000 ∧
      srv.writeTimeout = 10000000000 ∧
      0 < srv.readTimeout ∧ srv.readTimeout < srv.writeTimeout ∧
      srv.writeTimeout < srv.idleTimeout ∧ srv.idleTimeout < 2 ^ 63 := by
  have hp := run_path w
  revert h
  generalize run w = r at hp ⊢
  have h1 : Minute = 60000000000 := by decide
  have h2 : Second = 1000000000 := by decide
  cases hp <;>
    simp [servers, flagsTrace, openTrace, cacheTrace, listenTrace, fatalTrace, serverOf, h1, h2] <;>
    (rintro rfl; simp)

/-- The server of the run with no flag given is an instance. -/
theorem timeouts_fixed_witness :
    serverOf worldGraceful { id := 1 } [("home.page.tmpl", 1)] ∈
        servers (run worldGraceful).trace ∧
      (serverOf worldGraceful { id := 1 } [("home.page.tmpl", 1)]).idleTimeout = 60000000000 ∧
      (serverOf worldGraceful { id := 1 } [("home.page.tmpl", 1)]).readTimeout = 5000000000 ∧
      (serverOf worldGraceful { id := 1 } [("home.page.tmpl", 1)]).writeTimeout = 10000000000 :=
  have h := timeouts_fixed worldGraceful
    (serverOf worldGraceful { id := 1 } [("home.page.tmpl", 1)]) (by decide)
  ⟨by decide, h.2.2.2.1, h.2.2.2.2.1, h.2.2.2.2.2.1⟩

/-! ## Command line -/

/-- C9: `main` registers the three flags `dsn`, `addr` and `secret` and no other,
`addr` with the default `":4000"`; once `flag.Parse` has returned, the string
handed to `openDB`, and by it to `sql.Open`, is the value of `dsn`, the address
of every server is the value of `addr`, and every session key is the bytes of
the value of `secret`; the value of a flag is what the command line gives for
it and its default otherwise. -/
theorem flags_dsn_addr_secret (w : World) (h0 : w.flagParseExit = none) :
    registeredFlags (run w).trace =
        [("dsn", "web:pass@/snippetbox?parseTime=true"), ("addr", ":4000"),
         ("secret", "s6Ndh+pPbnzHbS*+9Pk8qGWhTzbpa@ge")] ∧
      openedDSNs (run w).trace = [flagValue w "dsn" "web:pass@/snippetbox?parseTime=true"] ∧
      (∀ srv ∈ servers (run w).trace, srv.addr = flagValue w "addr" ":4000") ∧
      (∀ key ∈ sessionKeys (run w).trace,
        key = bytes (flagValue w "secret" "s6Ndh+pPbnzHbS*+9Pk8qGWhTzbpa@ge")) ∧
      (w.given "addr" = none → flagValue w "addr" ":4000" = ":4000") ∧
      (∀ name value v, w.given name = some v → flagValue w name value = v) := by
  have hp := run_path w
  generalize run w = r at hp ⊢
  have hv : ∀ name value v, w.given name = some v → flagValue w name value = v := by
    intro name value v hg
    simp [flagValue, hg]
  have hd : w.given "addr" = none → flagValue w "addr" ":4000" = ":4000" := by
    intro hg
    simp [flagValue, hg]
  cases hp <;>
    simp_all [registeredFlags, openedDSNs, servers, sessionKeys, flagsTrace, openTrace,
      cacheTrace, listenTrace, fatalTrace, serverOf, dsnOf, addrOf, secretOf]

/-- The run with all three flags given is an instance: their values reach
`sql.Open`, the server and `sessions.New`. -/
theorem flags_dsn_addr_secret_witness :
    openedDSNs (run worldFlags).trace = ["web:pw@/box"] ∧
      (servers (run worldFlags).trace).map (fun srv => srv.addr) = [":8443"] ∧
      sessionKeys (run worldFlags).trace = [[107]] ∧
      registeredFlags (run worldFlags).trace =
        [("dsn", "web:pass@/snippetbox?parseTime=true"), ("addr", ":4000"),
         ("secret", "s6Ndh+pPbnzHbS*+9Pk8qGWhTzbpa@ge")] :=
  ⟨by decide, by decide, by decide, (flags_dsn_addr_secret worldFlags rfl).1⟩

/-! ## Logging of fatal errors -/

/-- C10: when `openDB` (through `sql.Open` or `Ping`), `newTemplateCache` or
`ListenAndServeTLS` returns an error, the last two calls of the run are the
print of that same error on the error logger, the logger created on standard
error with prefix `ERROR`, and `os.Exit(1)`. -/
theorem fatal_error_is_logged (w : World) (e : GoError)
    (h : dataStoreFailed (run w).trace e = true ∨ templateCacheFailed (run w).trace e = true ∨
      listenAndServeTLSFailed (run w).trace e = true) :
    ∃ pre, (run w).trace = pre ++ [.logPrint mainErrorLog (some e), .osExit 1] ∧
      Event.logNew mainErrorLog ∈ pre ∧
      printed (run w).trace = [(mainErrorLog, some e)] ∧
      mainErrorLog = { out := .stderr, pfx := "ERROR\t", flags := 19 } ∧
      (run w).exit = some 1 := by
  have hp := run_path w
  revert h
  generalize run w = r at hp ⊢
  have hl : mainErrorLog = { out := .stderr, pfx := "ERROR\t", flags := 19 } := by decide
  cases hp with
  | parseExits c h0 =>
    simp [dataStoreFailed, templateCacheFailed, listenAndServeTLSFailed, flagsTrace]
  | openFails e1 h0 h1 =>
    intro h
    have he : e1 = e := by
      simpa [dataStoreFailed, templateCacheFailed, listenAndServeTLSFailed, flagsTrace,
        openTrace, fatalTrace] using h
    subst he
    exact ⟨openTrace w (.error e1), rfl, by simp [openTrace], by
      simp [printed, openTrace, flagsTrace, fatalTrace], hl, rfl⟩
  | pingFails db e1 h0 h1 h2 =>
    intro h
    have he : e1 = e := by
      simpa [dataStoreFailed, templateCacheFailed, listenAndServeTLSFailed, flagsTrace,
        openTrace, fatalTrace] using h
    subst he
    exact ⟨openTrace w (.ok db) ++ [.dbPing db (some e1)], rfl, by simp [openTrace], by
      simp [printed, openTrace, flagsTrace, fatalTrace], hl, rfl⟩
  | cacheFails db e1 h0 h1 h2 h3 =>
    intro h
    have he : e1 = e := by
      simpa [dataStoreFailed, templateCacheFailed, listenAndServeTLSFailed, flagsTrace,
        openTrace, cacheTrace, fatalTrace] using h
    subst he
    exact ⟨cacheTrace w db (.error e1), rfl, by simp [openTrace, cacheTrace], by
      simp [printed, openTrace, cacheTrace, flagsTrace, fatalTrace], hl, rfl⟩
  | listenFails db cache e1 h0 h1 h2 h3 h4 =>
    intro h
    have he : e1 = e := by
      simpa [dataStoreFailed, templateCacheFailed, listenAndServeTLSFailed, flagsTrace,
        openTrace, cacheTrace, listenTrace, fatalTrace] using h
    subst he
    exact ⟨listenTrace w db cache (some e1), rfl, by simp [openTrace, cacheTrace, listenTrace],
      by simp [printed, openTrace, cacheTrace, listenTrace, flagsTrace, fatalTrace], hl, rfl⟩
  | keyPairFails db cache e1 h0 h1 h2 h3 h4 h5 =>
    intro h
    have he : e1 = e := by
      simpa [dataStoreFailed, templateCacheFailed, listenAndServeTLSFailed, flagsTrace,
        openTrace, cacheTrace, listenTrace, fatalTrace] using h
    subst he
    exact ⟨listenTrace w db cache none ++
        [.loadX509KeyPair "./tls/cert.pem" "./tls/key.pem" (some e1), .listenerClose],
      rfl, by simp [openTrace, cacheTrace, listenTrace],
      by simp [printed, openTrace, cacheTrace, listenTrace, flagsTrace, fatalTrace], hl, rfl⟩
  | serverStops db cache e1 h0 h1 h2 h3 h4 h5 h6 =>
    intro h
    have he : e1 = e := by
      simpa [dataStoreFailed, templateCacheFailed, listenAndServeTLSFailed, flagsTrace,
        openTrace, cacheTrace, listenTrace, fatalTrace] using h
    subst he
    exact ⟨listenTrace w db cache none ++
        [.loadX509KeyPair "./tls/cert.pem" "./tls/key.pem" none, .serve, .serveReturn e1,
         .listenerClose],
      rfl, by simp [openTrace, cacheTrace, listenTrace],
      by simp [printed, openTrace, cacheTrace, listenTrace, flagsTrace, fatalTrace], hl, rfl⟩
  | serves db cache h0 h1 h2 h3 h4 h5 h6 =>
    simp [dataStoreFailed, templateCacheFailed, listenAndServeTLSFailed, flagsTrace,
      openTrace, cacheTrace, listenTrace]

/-- The run in which a page template does not parse is an instance. -/
theorem fatal_error_is_logged_witness :
    ∃ pre, (run worldBadTemplate).trace =
        pre ++ [.logPrint mainErrorLog (some "template: home.page.tmpl:1: unexpected EOF"),
          .osExit 1] ∧
      Event.logNew mainErrorLog ∈ pre ∧
      printed (run worldBadTemplate).trace =
        [(mainErrorLog, some "template: home.page.tmpl:1: unexpected EOF")] ∧
      mainErrorLog = { out := .stderr, pfx := "ERROR\t", flags := 19 } ∧
      (run worldBadTemplate).exit = some 1 :=
  fatal_error_is_logged worldBadTemplate "template: home.page.tmpl:1: unexpected EOF"
    (Or.inr (Or.inl (by decide)))

end SnippetsGo
